import Mathlib

/-!
Shallow embedding of `src/pmd/preprocessing/timetravel.c`, an LD_PRELOAD
time-interposition shim adapted from datefudge.  The shim intercepts the
libc wall-clock queries `time`, `gettimeofday` / `__gettimeofday` and
`clock_gettime`, calls through to the genuine libc function, and then
overwrites the seconds-since-epoch component of the result with the fixed
constant `travel`.

Modelling conventions:
* `time_t` is `Int` (the error value `(time_t)(-1)` is representable).
* A C output pointer is an `Option` slot: `none` is a NULL pointer,
  `some v` is a non-null pointer whose pointee holds `v` at that moment.
* The genuine libc call is an oracle: a structure recording the result
  code the genuine call returns and the values it leaves in the output
  memory when the corresponding pointer is non-null.  Each interceptor is
  then a pure function of the oracle and the caller's arguments, returning
  the result code together with the final contents of each output slot.
* The lazily-populated `static` function-pointer caches of the resolver
  (`libc_time`, `libc_gettimeofday`, `libc_clock_gettime`) are modelled
  separately as an explicit state machine (`resolveStep`, `ShimState`),
  with a NULL handle written `0`.
-/

namespace Timetravel

/-- C `time_t`, modelled as a mathematical integer. -/
abbrev time_t := Int

/-- C `clockid_t`, the clock-domain selector. -/
abbrev clockid_t := Int

/-- Linux `CLOCK_REALTIME` selector value. -/
def CLOCK_REALTIME : clockid_t := 0

/-- Linux `CLOCK_MONOTONIC` selector value. -/
def CLOCK_MONOTONIC : clockid_t := 1

/-- C `struct timeval`: seconds and microseconds. -/
structure timeval where
  tv_sec : Int
  tv_usec : Int
deriving DecidableEq, Repr

/-- C `struct timespec`: seconds and nanoseconds. -/
structure timespec where
  tv_sec : Int
  tv_nsec : Int
deriving DecidableEq, Repr

/-- `static time_t travel = 1661140800;` — the configured travel time,
the Unix timestamp of 2022-08-22T00:00:00Z. -/
def travel : time_t := 1661140800

/-- `set_travel` with the travel value passed explicitly (the C function
reads the file-scope `travel` directly; the explicit parameter lets the
process-state machine below thread the same value through a state field).
A NULL pointer (`none`) is left alone — `if (!seconds) return;` — and a
non-null pointer has its pointee overwritten with the travel value. -/
def set_travelW (tv : time_t) (seconds : Option time_t) : Option time_t :=
  match seconds with
  | none => none
  | some _ => some tv

/-- `static void set_travel(time_t *seconds)`: overwrite the pointee of a
non-null pointer with the global `travel`, skip a NULL pointer. -/
def set_travel : Option time_t → Option time_t :=
  set_travelW travel

/-- Oracle for the genuine libc `time`: `res` is its return value
(`(time_t)(-1)` on failure) and `written` is the value it leaves in `*x`
when `x` is non-null. -/
structure GenuineTime where
  res : time_t
  written : time_t
deriving DecidableEq, Repr

/-- Oracle for the genuine libc `gettimeofday`: `res` is its return code,
`writtenTv` the `struct timeval` it leaves in `*x` when `x` is non-null,
`writtenTz` the (opaque) timezone data it leaves through a non-null `y`. -/
structure GenuineGTOD where
  res : Int
  writtenTv : timeval
  writtenTz : Int
deriving DecidableEq, Repr

/-- Oracle for the genuine libc `clock_gettime`: `res` is its return code
and `written` the `struct timespec` it leaves in `*y` when non-null. -/
structure GenuineClock where
  res : Int
  written : timespec
deriving DecidableEq, Repr

/-- `real_time`: proxy to the genuine libc `time` (the lazy `dlsym`
caching of its `static` function pointer is modelled by `resolveStep`
below; the call itself returns the oracle's result and writes the
oracle's value through a non-null `x`). -/
def real_time (g : GenuineTime) (x : Option time_t) : time_t × Option time_t :=
  (g.res, x.map fun _ => g.written)

/-- `time` interceptor, travel value explicit:

    res = real_time(x);
    set_travel(x);
    set_travel(&res);
    return res;

`&res` points at a local, hence is never NULL, so `set_travel(&res)`
always overwrites `res`. -/
def timeW (tv : time_t) (g : GenuineTime) (x : Option time_t) :
    time_t × Option time_t :=
  let r := real_time g x
  let res := r.1
  let x1 := r.2
  let x2 := set_travelW tv x1
  let res2 := match set_travelW tv (some res) with
    | some v => v
    | none => res
  (res2, x2)

/-- `time_t time(time_t *x)` as exported by the shim. -/
def time : GenuineTime → Option time_t → time_t × Option time_t :=
  timeW travel

/-- `real_gettimeofday`: proxy to the genuine libc `gettimeofday`,
returning its result code and the final contents of the two output
slots. -/
def real_gettimeofday (g : GenuineGTOD) (x : Option timeval) (y : Option Int) :
    Int × Option timeval × Option Int :=
  (g.res, x.map fun _ => g.writtenTv, y.map fun _ => g.writtenTz)

/-- `__gettimeofday` interceptor, travel value explicit:

    res = real_gettimeofday(x, y);
    if (res)
        return res;
    set_travel(&x->tv_sec);
    return 0;

`&x->tv_sec` taken on a NULL `x` is the NULL seconds pointer (`tv_sec` is
the first field), so `set_travel` skips it and nothing is dereferenced. -/
def gtodW (tv : time_t) (g : GenuineGTOD) (x : Option timeval) (y : Option Int) :
    Int × Option timeval × Option Int :=
  let r := real_gettimeofday g x y
  let res := r.1
  let x1 := r.2.1
  let y1 := r.2.2
  if res ≠ 0 then (res, x1, y1)
  else
    let secSlot := set_travelW tv (x1.map timeval.tv_sec)
    let x2 := match x1, secSlot with
      | some v, some s => some { v with tv_sec := s }
      | _, _ => x1
    (0, x2, y1)

/-- `int __gettimeofday(struct timeval *x, void *y)` as exported. -/
def __gettimeofday : GenuineGTOD → Option timeval → Option Int →
    Int × Option timeval × Option Int :=
  gtodW travel

/-- `int gettimeofday(struct timeval *x, void *y)`: delegates
unconditionally to `__gettimeofday`. -/
def gettimeofday (g : GenuineGTOD) (x : Option timeval) (y : Option Int) :
    Int × Option timeval × Option Int :=
  __gettimeofday g x y

/-- `clock_gettime` interceptor, travel value explicit:

    res = (*libc_clock_gettime)(x, y);
    if (res || CLOCK_REALTIME != x)
        return res;
    set_travel(&y->tv_sec);
    return 0;

As for `__gettimeofday`, `&y->tv_sec` on a NULL `y` is the NULL seconds
pointer, which `set_travel` skips. -/
def clock_gettimeW (tv : time_t) (g : GenuineClock) (x : clockid_t)
    (y : Option timespec) : Int × Option timespec :=
  let y1 := y.map fun _ => g.written
  let res := g.res
  if res ≠ 0 ∨ CLOCK_REALTIME ≠ x then (res, y1)
  else
    let secSlot := set_travelW tv (y1.map timespec.tv_sec)
    let y2 := match y1, secSlot with
      | some v, some s => some { v with tv_sec := s }
      | _, _ => y1
    (0, y2)

/-- `int clock_gettime(clockid_t x, struct timespec *y)` as exported. -/
def clock_gettime : GenuineClock → clockid_t → Option timespec →
    Int × Option timespec :=
  clock_gettimeW travel

/-! ## Resolver and process state

Each proxy holds a `static` function pointer, NULL at load time, and runs

    if (!fp) fp = dlsym(RTLD_NEXT, name);

before calling through it.  A handle is a `Nat`, with `0` for NULL, and
`d` is the (fixed) result `dlsym` produces for the targeted name. -/

/-- One invocation of a proxy's lazy resolution: from the current cache
contents, return the handle the call will use, the new cache contents,
and whether a `dlsym` lookup was performed. -/
def resolveStep (d : Nat) (cache : Nat) : Nat × Nat × Bool :=
  if cache = 0 then (d, d, true) else (cache, cache, false)

/-- Iterate `resolveStep` over `n` successive invocations: the list of
(handle used, lookup performed) pairs, one per invocation in order, and
the final cache contents. -/
def resolveRun (d : Nat) (cache : Nat) : Nat → List (Nat × Bool) × Nat
  | 0 => ([], cache)
  | n + 1 =>
    let r := resolveStep d cache
    let rest := resolveRun d r.2.1 n
    ((r.1, r.2.2) :: rest.1, rest.2)

/-- The mutable file-scope state of the loaded shim: the `travel`
variable and the three `static` function-pointer caches (`0` = NULL). -/
structure ShimState where
  travel : time_t
  libc_time : Nat
  libc_gettimeofday : Nat
  libc_clock_gettime : Nat
deriving DecidableEq, Repr

/-- One intercepted call: the interceptor invoked, its arguments, the
genuine-libc oracle for this call, and the handle `dlsym` would return
for the targeted symbol. -/
inductive ShimCall where
  | timeC (g : GenuineTime) (x : Option time_t) (d : Nat)
  | gtodC (g : GenuineGTOD) (x : Option timeval) (y : Option Int) (d : Nat)
  | clockC (g : GenuineClock) (x : clockid_t) (y : Option timespec) (d : Nat)
deriving DecidableEq, Repr

/-- The observable outcome of one intercepted call. -/
inductive ShimResult where
  | timeR (r : time_t × Option time_t)
  | gtodR (r : Int × Option timeval × Option Int)
  | clockR (r : Int × Option timespec)
deriving DecidableEq, Repr

/-- State transition of one intercepted call: only the cache of the
invoked interceptor can change, via `resolveStep`. -/
def shimStep (s : ShimState) : ShimCall → ShimState
  | .timeC _ _ d => { s with libc_time := (resolveStep d s.libc_time).2.1 }
  | .gtodC _ _ _ d =>
      { s with libc_gettimeofday := (resolveStep d s.libc_gettimeofday).2.1 }
  | .clockC _ _ _ d =>
      { s with libc_clock_gettime := (resolveStep d s.libc_clock_gettime).2.1 }

/-- The observable outcome of one intercepted call, as a function of the
travel value in effect when it runs. -/
def shimOutput (tv : time_t) : ShimCall → ShimResult
  | .timeC g x _ => .timeR (timeW tv g x)
  | .gtodC g x y _ => .gtodR (gtodW tv g x y)
  | .clockC g x y _ => .clockR (clock_gettimeW tv g x y)

/-- Run a sequence of intercepted calls from a state: the list of
observable outcomes (each computed with the travel value of the state it
runs in) and the final state. -/
def shimRun (s : ShimState) : List ShimCall → List ShimResult × ShimState
  | [] => ([], s)
  | c :: cs =>
    let rest := shimRun (shimStep s c) cs
    (shimOutput s.travel c :: rest.1, rest.2)

/-! ## Helper lemmas -/

/-- `timeW` always returns the travel value and writes it through a
non-null pointer, whatever the genuine call produced. -/
theorem timeW_eq (tv : time_t) (g : GenuineTime) (x : Option time_t) :
    timeW tv g x = (tv, x.map fun _ => tv) := by
  cases x <;> simp [timeW, real_time, set_travelW]

/-- On genuine failure, `gtodW` returns the failure and the output slots
exactly as the genuine call left them. -/
theorem gtodW_fail (tv : time_t) (g : GenuineGTOD) (x : Option timeval)
    (y : Option Int) (h : g.res ≠ 0) :
    gtodW tv g x y =
      (g.res, x.map fun _ => g.writtenTv, y.map fun _ => g.writtenTz) := by
  simp [gtodW, real_gettimeofday, h]

/-- On genuine success with a non-null `timeval` pointer, `gtodW`
substitutes only the seconds field. -/
theorem gtodW_succ_some (tv : time_t) (g : GenuineGTOD) (v : timeval)
    (y : Option Int) (h : g.res = 0) :
    gtodW tv g (some v) y =
      (0, some { g.writtenTv with tv_sec := tv }, y.map fun _ => g.writtenTz) := by
  simp [gtodW, real_gettimeofday, h, set_travelW]

/-- On genuine success with a NULL `timeval` pointer, `gtodW` writes
nothing. -/
theorem gtodW_succ_none (tv : time_t) (g : GenuineGTOD) (y : Option Int)
    (h : g.res = 0) :
    gtodW tv g none y = (0, none, y.map fun _ => g.writtenTz) := by
  simp [gtodW, real_gettimeofday, h, set_travelW]

/-- When the genuine call failed or the selector is not `CLOCK_REALTIME`,
`clock_gettimeW` passes the genuine result and output through. -/
theorem clockW_pass (tv : time_t) (g : GenuineClock) (x : clockid_t)
    (y : Option timespec) (h : g.res ≠ 0 ∨ CLOCK_REALTIME ≠ x) :
    clock_gettimeW tv g x y = (g.res, y.map fun _ => g.written) := by
  simp only [clock_gettimeW]
  rw [if_pos h]

/-- On genuine success for `CLOCK_REALTIME` with a non-null pointer,
`clock_gettimeW` substitutes only the seconds field. -/
theorem clockW_subst_some (tv : time_t) (g : GenuineClock) (v : timespec)
    (h : g.res = 0) :
    clock_gettimeW tv g CLOCK_REALTIME (some v) =
      (0, some { g.written with tv_sec := tv }) := by
  simp [clock_gettimeW, h, set_travelW]

/-- On genuine success for `CLOCK_REALTIME` with a NULL pointer,
`clock_gettimeW` writes nothing. -/
theorem clockW_subst_none (tv : time_t) (g : GenuineClock) (h : g.res = 0) :
    clock_gettimeW tv g CLOCK_REALTIME none = (0, none) := by
  simp [clock_gettimeW, h, set_travelW]

/-- The timezone slot of `gtodW` always holds exactly what the genuine
call left there: the shim never writes through `y`. -/
theorem gtodW_tz (tv : time_t) (g : GenuineGTOD) (x : Option timeval)
    (y : Option Int) :
    (gtodW tv g x y).2.2 = y.map fun _ => g.writtenTz := by
  rcases eq_or_ne g.res 0 with h | h
  · cases x with
    | none => rw [gtodW_succ_none tv g y h]
    | some v => rw [gtodW_succ_some tv g v y h]
  · rw [gtodW_fail tv g x y h]

/-- A step of any intercepted call leaves the `travel` field of the shim
state unchanged. -/
theorem shimStep_travel (s : ShimState) (c : ShimCall) :
    (shimStep s c).travel = s.travel := by
  cases c <;> rfl

/-- Once the cache holds the (non-null) `dlsym` result, every further
invocation uses it without a lookup. -/
theorem resolveRun_cached (d : Nat) (h : d ≠ 0) (n : Nat) :
    resolveRun d d n = (List.replicate n (d, false), d) := by
  induction n with
  | zero => rfl
  | succ k ih => simp [resolveRun, resolveStep, h, ih, List.replicate_succ]

/-! ## Claim theorems -/

/-- C1: every intercepted wall-clock query returns, on success, exactly
the configured travel-time constant as its seconds-since-epoch value —
for `time` the return value, for `__gettimeofday` and for `clock_gettime`
with the `CLOCK_REALTIME` selector the seconds field of the output record
— independent of the genuine value; and the substitution `set_travel` is
a constant function of its (non-null) input. -/
theorem C1_constant_substitution :
    (∀ (g : GenuineTime) (x : Option time_t), (time g x).1 = travel) ∧
    (∀ (g : GenuineGTOD) (x : Option timeval) (y : Option Int) (v : timeval),
      (__gettimeofday g x y).1 = 0 → (__gettimeofday g x y).2.1 = some v →
      v.tv_sec = travel) ∧
    (∀ (g : GenuineClock) (y : Option timespec) (v : timespec),
      (clock_gettime g CLOCK_REALTIME y).1 = 0 →
      (clock_gettime g CLOCK_REALTIME y).2 = some v → v.tv_sec = travel) ∧
    (∀ s t : time_t, set_travel (some s) = set_travel (some t)) := by
  refine ⟨?_, ?_, ?_, ?_⟩
  · intro g x
    simp [time, timeW_eq]
  · intro g x y v h1 h2
    rcases eq_or_ne g.res 0 with h | h
    · cases x with
      | none =>
        rw [show __gettimeofday = gtodW travel from rfl,
          gtodW_succ_none travel g y h] at h2
        cases h2
      | some v0 =>
        rw [show __gettimeofday = gtodW travel from rfl,
          gtodW_succ_some travel g v0 y h] at h2
        simp only [Option.some.injEq] at h2
        rw [← h2]
    · rw [show __gettimeofday = gtodW travel from rfl,
        gtodW_fail travel g x y h] at h1
      exact absurd h1 h
  · intro g y v h1 h2
    rcases eq_or_ne g.res 0 with h | h
    · cases y with
      | none =>
        rw [show clock_gettime = clock_gettimeW travel from rfl,
          clockW_subst_none travel g h] at h2
        cases h2
      | some v0 =>
        rw [show clock_gettime = clock_gettimeW travel from rfl,
          clockW_subst_some travel g v0 h] at h2
        simp only [Option.some.injEq] at h2
        rw [← h2]
    · rw [show clock_gettime = clock_gettimeW travel from rfl,
        clockW_pass travel g CLOCK_REALTIME y (Or.inl h)] at h1
      exact absurd h1 h
  · intro s t
    rfl

/-- C1 witness: the substitution at concrete inputs. -/
theorem C1_constant_substitution_witness :
    (time ⟨5, 7⟩ (some 9)).1 = travel ∧
    (⟨1661140800, 20⟩ : timeval).tv_sec = travel ∧
    (⟨1661140800, 30⟩ : timespec).tv_sec = travel ∧
    set_travel (some 1) = set_travel (some 2) :=
  ⟨C1_constant_substitution.1 ⟨5, 7⟩ (some 9),
   C1_constant_substitution.2.1 ⟨0, ⟨10, 20⟩, 3⟩ (some ⟨1, 2⟩) (some 4)
     ⟨1661140800, 20⟩ (by decide) (by decide),
   C1_constant_substitution.2.2.1 ⟨0, ⟨10, 30⟩⟩ (some ⟨1, 2⟩)
     ⟨1661140800, 30⟩ (by decide) (by decide),
   C1_constant_substitution.2.2.2 1 2⟩

/-- C2 counterexample: the `time` interceptor does NOT propagate a
genuine failure untouched.  With the genuine `time` failing (returning
the error value `(time_t)(-1)`) and the caller's output slot holding `5`,
the shim still substitutes: it returns `travel` (not `-1`) and overwrites
the output slot with `travel`. -/
theorem C2_counterexample :
    time ⟨-1, 5⟩ (some 5) = (travel, some travel) ∧ travel ≠ -1 := by
  decide

/-- C2 (amended): for the time-of-day shape (`__gettimeofday`) and the
clock-domain shape (`clock_gettime`), a genuine failure (non-zero result)
is returned exactly, with every output slot left as the genuine call
produced it — no substitution is attempted.  The seconds-since-epoch
shape (`time`) is excluded: it substitutes unconditionally, even when the
genuine call returned the error value. -/
theorem C2_failure_passthrough :
    (∀ (g : GenuineGTOD) (x : Option timeval) (y : Option Int), g.res ≠ 0 →
      __gettimeofday g x y =
        (g.res, x.map fun _ => g.writtenTv, y.map fun _ => g.writtenTz)) ∧
    (∀ (g : GenuineClock) (cx : clockid_t) (z : Option timespec), g.res ≠ 0 →
      clock_gettime g cx z = (g.res, z.map fun _ => g.written)) := by
  constructor
  · intro g x y h
    exact gtodW_fail travel g x y h
  · intro g cx z h
    exact clockW_pass travel g cx z (Or.inl h)

/-- C2 witness: genuine failure `-22` is passed through at concrete
inputs with the outputs untouched by the shim. -/
theorem C2_failure_passthrough_witness :
    __gettimeofday ⟨-22, ⟨10, 20⟩, 3⟩ (some ⟨1, 2⟩) (some 9) =
      (-22, some ⟨10, 20⟩, some 3) ∧
    clock_gettime ⟨-22, ⟨10, 20⟩⟩ CLOCK_REALTIME (some ⟨1, 2⟩) =
      (-22, some ⟨10, 20⟩) :=
  ⟨C2_failure_passthrough.1 ⟨-22, ⟨10, 20⟩, 3⟩ (some ⟨1, 2⟩) (some 9)
     (by decide),
   C2_failure_passthrough.2 ⟨-22, ⟨10, 20⟩⟩ CLOCK_REALTIME (some ⟨1, 2⟩)
     (by decide)⟩

/-- C3: for any selector other than `CLOCK_REALTIME`, the `clock_gettime`
interceptor returns the genuine result code and leaves the output record
exactly as the genuine call produced it — no substitution. -/
theorem C3_nonrealtime_passthrough (g : GenuineClock) (x : clockid_t)
    (y : Option timespec) (h : x ≠ CLOCK_REALTIME) :
    clock_gettime g x y = (g.res, y.map fun _ => g.written) :=
  clockW_pass travel g x y (Or.inr (Ne.symm h))

/-- C3 witness: a successful `CLOCK_MONOTONIC` query passes through with
seconds and nanoseconds exactly as the genuine call wrote them. -/
theorem C3_nonrealtime_passthrough_witness :
    CLOCK_MONOTONIC ≠ CLOCK_REALTIME ∧
    clock_gettime ⟨0, ⟨100, 5⟩⟩ CLOCK_MONOTONIC (some ⟨1, 2⟩) =
      (0, some ⟨100, 5⟩) :=
  ⟨by decide,
   C3_nonrealtime_passthrough ⟨0, ⟨100, 5⟩⟩ CLOCK_MONOTONIC (some ⟨1, 2⟩)
     (by decide)⟩

/-- C4: on success, only the seconds field of the output record is
modified — the microseconds field (`__gettimeofday`) and the nanoseconds
field (wall-clock `clock_gettime`) keep exactly the values the genuine
call wrote. -/
theorem C4_subsecond_preserved :
    (∀ (g : GenuineGTOD) (v : timeval) (y : Option Int), g.res = 0 →
      (__gettimeofday g (some v) y).2.1 =
        some ⟨travel, g.writtenTv.tv_usec⟩) ∧
    (∀ (g : GenuineClock) (v : timespec), g.res = 0 →
      (clock_gettime g CLOCK_REALTIME (some v)).2 =
        some ⟨travel, g.written.tv_nsec⟩) := by
  constructor
  · intro g v y h
    rw [show __gettimeofday = gtodW travel from rfl,
      gtodW_succ_some travel g v y h]
  · intro g v h
    rw [show clock_gettime = clock_gettimeW travel from rfl,
      clockW_subst_some travel g v h]

/-- C4 witness: genuine sub-second values 20 µs and 30 ns survive the
substitution at concrete inputs. -/
theorem C4_subsecond_preserved_witness :
    (__gettimeofday ⟨0, ⟨10, 20⟩, 3⟩ (some ⟨1, 2⟩) none).2.1 =
      some ⟨travel, 20⟩ ∧
    (clock_gettime ⟨0, ⟨10, 30⟩⟩ CLOCK_REALTIME (some ⟨1, 2⟩)).2 =
      some ⟨travel, 30⟩ :=
  ⟨C4_subsecond_preserved.1 ⟨0, ⟨10, 20⟩, 3⟩ ⟨1, 2⟩ none (by decide),
   C4_subsecond_preserved.2 ⟨0, ⟨10, 30⟩⟩ ⟨1, 2⟩ (by decide)⟩

/-- C5: a NULL output pointer is never dereferenced — `set_travel` skips
it, `time` with a NULL pointer still returns the substituted travel value,
and neither `__gettimeofday` nor `clock_gettime` writes through a NULL
record pointer (all the interceptors are total functions in this model). -/
theorem C5_null_pointer_skipped :
    set_travel none = none ∧
    (∀ g : GenuineTime, time g none = (travel, none)) ∧
    (∀ (g : GenuineGTOD) (y : Option Int),
      (__gettimeofday g none y).2.1 = none) ∧
    (∀ (g : GenuineClock) (x : clockid_t),
      (clock_gettime g x none).2 = none) := by
  refine ⟨rfl, ?_, ?_, ?_⟩
  · intro g
    simp [time, timeW_eq]
  · intro g y
    rcases eq_or_ne g.res 0 with h | h
    · rw [show __gettimeofday = gtodW travel from rfl, gtodW_succ_none travel g y h]
    · rw [show __gettimeofday = gtodW travel from rfl, gtodW_fail travel g none y h]
      rfl
  · intro g x
    by_cases hc : g.res ≠ 0 ∨ CLOCK_REALTIME ≠ x
    · rw [show clock_gettime = clock_gettimeW travel from rfl,
        clockW_pass travel g x none hc]
      rfl
    · push_neg at hc
      rw [show clock_gettime = clock_gettimeW travel from rfl, ← hc.2,
        clockW_subst_none travel g hc.1]

/-- C6: the `time` interceptor sets both its return value and, when the
output pointer is non-null, the pointee to the configured travel time,
whose default value is 1661140800 (2022-08-22T00:00:00Z). -/
theorem C6_default_travel_time :
    travel = 1661140800 ∧
    (∀ (g : GenuineTime) (v : time_t), time g (some v) = (travel, some travel)) ∧
    (∀ g : GenuineTime, (time g none).1 = travel) := by
  refine ⟨rfl, ?_, ?_⟩
  · intro g v
    simp [time, timeW_eq]
  · intro g
    simp [time, timeW_eq]

/-- C7: starting from an uninitialized (NULL) cache, a sequence of `n+1`
invocations of a proxy's resolver performs exactly one `dlsym` lookup, on
the first invocation, which populates the cache; every invocation uses
the same handle `d`, all subsequent ones from the cache without a lookup,
and the cache stays `d` for good (given the deployment precondition that
`dlsym` finds the genuine symbol, `d ≠ 0`). -/
theorem C7_resolve_once (d : Nat) (h : d ≠ 0) (n : Nat) :
    resolveRun d 0 (n + 1) = ((d, true) :: List.replicate n (d, false), d) := by
  simp [resolveRun, resolveStep, resolveRun_cached d h n]

/-- C7 witness: three invocations with `dlsym` handle 7 — one lookup,
then two cached uses. -/
theorem C7_resolve_once_witness :
    (7 : Nat) ≠ 0 ∧
    resolveRun 7 0 3 = ((7, true) :: List.replicate 2 (7, false), 7) :=
  ⟨by decide, C7_resolve_once 7 (by decide) 2⟩

/-- C8: the configured travel time is never mutated — after any sequence
of intercepted calls the `travel` field of the shim state is unchanged,
and every call's observable outcome is computed from the single initial
travel value. -/
theorem C8_travel_never_mutated (s : ShimState) (cs : List ShimCall) :
    (shimRun s cs).2.travel = s.travel ∧
    (shimRun s cs).1 = cs.map (shimOutput s.travel) := by
  induction cs generalizing s with
  | nil => exact ⟨rfl, rfl⟩
  | cons c cs ih =>
    have h := ih (shimStep s c)
    refine ⟨?_, ?_⟩
    · exact h.1.trans (shimStep_travel s c)
    · show shimOutput s.travel c :: (shimRun (shimStep s c) cs).1 =
        shimOutput s.travel c :: cs.map (shimOutput s.travel)
      rw [h.2, shimStep_travel]

/-- C9: the exported `gettimeofday` delegates unconditionally to
`__gettimeofday` and is extensionally equal to it. -/
theorem C9_gettimeofday_delegates (g : GenuineGTOD) (x : Option timeval)
    (y : Option Int) :
    gettimeofday g x y = __gettimeofday g x y :=
  rfl

/-- C10: the shim never writes through the timezone argument — after
either time-of-day interceptor, the `y` slot holds exactly what the
genuine call left there. -/
theorem C10_timezone_untouched (g : GenuineGTOD) (x : Option timeval)
    (y : Option Int) :
    (__gettimeofday g x y).2.2 = y.map (fun _ => g.writtenTz) ∧
    (gettimeofday g x y).2.2 = y.map (fun _ => g.writtenTz) :=
  ⟨gtodW_tz travel g x y, gtodW_tz travel g x y⟩

end Timetravel
